import Mathlib

/-!
# Verification of the SZE energy-management core (dane_SZE)

Shallow embedding of the two source files of the repository:

* `src/config_loader.py` — the configuration store: four JSON documents
  cached in a process-wide cache, a `reload_all_configs` operation, lazy
  accessors (`get_energy_profiles`, `get_cwu_schedule`, `get_system_config`,
  `get_user_corrections`) and a pure `get_config_status`.
* `src/sze_core.py` — the status resolver (`SystemManager`): day-type,
  tariff and status-snapshot computation, the two operating flags and the
  mutation operations (`toggle_cwu_boiler`, `refresh_data`).

Conventions of the embedding:

* A Python JSON value is `JsonVal`; Python truthiness (`if x:`) on an
  `Optional` JSON value is `optTruthy` (`None`, `{}`, `[]`, `0`, `""`,
  `false`, `null` are falsy).
* `_load_json_file` returns `Optional[dict]`: a missing file or a parse
  error yields `None`.  The outcome of reading the four source files of one
  reload attempt is a `SourceReads` record of `Option JsonVal`, an input of
  the model (the file system is external).
* Wall-clock timestamps written into the cache (`datetime.now().isoformat()`)
  are opaque strings, also inputs of the model.
-/

namespace SZE

/-- A JSON value as produced by Python's `json.load`.  Object fields are an
association list with distinct keys (as `json.load` yields a `dict`). -/
inductive JsonVal where
  | null
  | bool (b : Bool)
  | num (n : Int)
  | str (s : String)
  | arr (elems : List JsonVal)
  | obj (fields : List (String × JsonVal))
deriving Repr

/-- Python truthiness `bool(v)` of a JSON value: `None`, `False`, `0`, `""`,
`[]` and `{}` are falsy, everything else truthy. -/
def JsonVal.truthy : JsonVal → Bool
  | .null => false
  | .bool b => b
  | .num n => n != 0
  | .str s => s != ""
  | .arr es => !es.isEmpty
  | .obj fs => !fs.isEmpty

/-- Python truthiness of an `Optional` JSON value (`if x:` where `x` is
`None` or a JSON value). -/
def optTruthy : Option JsonVal → Bool
  | none => false
  | some v => v.truthy

/-- The global `_config_cache` dictionary of `config_loader.py`: four
document slots plus `last_load_time` (an ISO timestamp string). -/
structure ConfigCache where
  energy_profiles : Option JsonVal
  cwu_schedule : Option JsonVal
  system_config : Option JsonVal
  user_corrections : Option JsonVal
  last_load_time : Option String
deriving Repr

/-- The initial value of `_config_cache`: every slot `None`. -/
def initialCache : ConfigCache :=
  { energy_profiles := none, cwu_schedule := none, system_config := none
    user_corrections := none, last_load_time := none }

/-- The outcome of `_load_json_file` on each of the four configuration files
during one reload attempt.  `none` means the file was missing or failed to
parse (the function returns `None` in both cases); `some v` means the file
parsed to the JSON value `v`. -/
structure SourceReads where
  energy : Option JsonVal
  cwu : Option JsonVal
  system : Option JsonVal
  corrections : Option JsonVal
deriving Repr

/-- `reload_all_configs` (config_loader.py lines 45–96).  `success` starts
`True` and is cleared on each document whose `if data:` test fails;
`loaded_files` accumulates the names of the documents that passed it; the
cache slot of a passing document is overwritten, the slot of a failing one
is left alone; finally `last_load_time` is set to `now` when `loaded_files`
is non-empty.  Returns the `success` flag and the updated cache. -/
def reload_all_configs (src : SourceReads) (now : String) (c : ConfigCache) :
    Bool × ConfigCache :=
  let success := true
  let loaded_files : List String := []
  let (success, loaded_files, c) :=
    if optTruthy src.energy then
      (success, loaded_files ++ ["energy_profiles.json"],
       { c with energy_profiles := src.energy })
    else (false, loaded_files, c)
  let (success, loaded_files, c) :=
    if optTruthy src.cwu then
      (success, loaded_files ++ ["cwu_schedule.json"],
       { c with cwu_schedule := src.cwu })
    else (false, loaded_files, c)
  let (success, loaded_files, c) :=
    if optTruthy src.system then
      (success, loaded_files ++ ["system_config.json"],
       { c with system_config := src.system })
    else (false, loaded_files, c)
  let (success, loaded_files, c) :=
    if optTruthy src.corrections then
      (success, loaded_files ++ ["user_corrections.json"],
       { c with user_corrections := src.corrections })
    else (false, loaded_files, c)
  let c :=
    if ¬ loaded_files.isEmpty then { c with last_load_time := some now } else c
  (success, c)

/-- "At least one document loaded successfully" in one reload attempt: some
source passed the `if data:` test. -/
def anyLoaded (src : SourceReads) : Bool :=
  optTruthy src.energy || optTruthy src.cwu || optTruthy src.system ||
    optTruthy src.corrections

/-- "All four documents loaded successfully" in one reload attempt. -/
def allLoaded (src : SourceReads) : Bool :=
  optTruthy src.energy && optTruthy src.cwu && optTruthy src.system &&
    optTruthy src.corrections

/-- "All four documents load without error": each file exists and parses
(i.e. `_load_json_file` does not return `None`), regardless of the
truthiness of the parsed value. -/
def allReadable (src : SourceReads) : Bool :=
  src.energy.isSome && src.cwu.isSome && src.system.isSome &&
    src.corrections.isSome

/-- "All four documents are already cached" (every cache slot passes the
accessors' `if not _config_cache[...]:` truthiness test). -/
def allCached (c : ConfigCache) : Bool :=
  optTruthy c.energy_profiles && optTruthy c.cwu_schedule &&
    optTruthy c.system_config && optTruthy c.user_corrections

/-- Python `dict.get(k)` on a JSON object (the configuration documents are
`dict`s produced by `json.load`, so object keys are distinct). -/
def JsonVal.get? : JsonVal → String → Option JsonVal
  | .obj fs, k => fs.lookup k
  | _, _ => none

/-- Python `dict.get(k, d)` on a JSON object. -/
def JsonVal.getD (v : JsonVal) (k : String) (d : JsonVal) : JsonVal :=
  (v.get? k).getD d

/-- Python truthiness of an `Optional[str]` (`if day_type:`). -/
def strOptTruthy : Option String → Bool
  | none => false
  | some s => s != ""

/-- `get_energy_profiles` (config_loader.py lines 98–117).  If the cached
document is falsy, first trigger `reload_all_configs`; then return `None`
when the (possibly reloaded) document is still falsy, the day-type
sub-object when a day-type key was given, and the whole document otherwise.
The returned `Bool` records whether `reload_all_configs` was invoked. -/
def get_energy_profiles (day_type : Option String) (src : SourceReads)
    (now : String) (c : ConfigCache) : Option JsonVal × ConfigCache × Bool :=
  let (c, reloaded) :=
    if ¬ optTruthy c.energy_profiles then
      ((reload_all_configs src now c).2, true)
    else (c, false)
  let data := c.energy_profiles
  match data with
  | none => (none, c, reloaded)
  | some d =>
    if ¬ d.truthy then (none, c, reloaded)
    else if strOptTruthy day_type then
      let profiles := d.getD "energy_profiles" (.obj [])
      (profiles.get? (day_type.getD ""), c, reloaded)
    else (data, c, reloaded)

/-- `get_cwu_schedule` (config_loader.py lines 119–124): lazy reload when
the cached slot is falsy, then return the slot. -/
def get_cwu_schedule (src : SourceReads) (now : String) (c : ConfigCache) :
    Option JsonVal × ConfigCache × Bool :=
  let (c, reloaded) :=
    if ¬ optTruthy c.cwu_schedule then
      ((reload_all_configs src now c).2, true)
    else (c, false)
  (c.cwu_schedule, c, reloaded)

/-- `get_system_config` (config_loader.py lines 126–131). -/
def get_system_config (src : SourceReads) (now : String) (c : ConfigCache) :
    Option JsonVal × ConfigCache × Bool :=
  let (c, reloaded) :=
    if ¬ optTruthy c.system_config then
      ((reload_all_configs src now c).2, true)
    else (c, false)
  (c.system_config, c, reloaded)

/-- `get_user_corrections` (config_loader.py lines 133–138). -/
def get_user_corrections (src : SourceReads) (now : String) (c : ConfigCache) :
    Option JsonVal × ConfigCache × Bool :=
  let (c, reloaded) :=
    if ¬ optTruthy c.user_corrections then
      ((reload_all_configs src now c).2, true)
    else (c, false)
  (c.user_corrections, c, reloaded)

/-- The record returned by `get_config_status`: `last_load_time` plus the
per-document `is not None` flags. -/
structure ConfigStatus where
  last_load_time : Option String
  energy_profiles_loaded : Bool
  cwu_schedule_loaded : Bool
  system_config_loaded : Bool
  user_corrections_loaded : Bool
deriving Repr

/-- `get_config_status` (config_loader.py lines 140–151): a pure read, no
reload, `is not None` on each slot. -/
def get_config_status (c : ConfigCache) : ConfigStatus :=
  { last_load_time := c.last_load_time
    energy_profiles_loaded := c.energy_profiles.isSome
    cwu_schedule_loaded := c.cwu_schedule.isSome
    system_config_loaded := c.system_config.isSome
    user_corrections_loaded := c.user_corrections.isSome }

/-- `SystemManager.config_data` as assembled by `_load_config_data`
(sze_core.py lines 38–57): the values returned by the five store accessors. -/
structure ConfigData where
  energy_profiles : Option JsonVal
  cwu_schedule : Option JsonVal
  system_config : Option JsonVal
  user_corrections : Option JsonVal
  config_status : ConfigStatus
deriving Repr

/-- `SystemManager._load_config_data` (sze_core.py lines 38–57): calls the
five accessors in order, threading the store cache; the `Bool` records
whether any accessor invoked `reload_all_configs`.  (The accessors never
raise, so the `try/except` of the source never fires.) -/
def load_config_data (src : SourceReads) (now : String) (c : ConfigCache) :
    ConfigData × ConfigCache × Bool :=
  let a1 := get_energy_profiles none src now c
  let a2 := get_cwu_schedule src now a1.2.1
  let a3 := get_system_config src now a2.2.1
  let a4 := get_user_corrections src now a3.2.1
  let st := get_config_status a4.2.1
  ({ energy_profiles := a1.1, cwu_schedule := a2.1, system_config := a3.1,
     user_corrections := a4.1, config_status := st }, a4.2.1,
   a1.2.2 || a2.2.2 || a3.2.2 || a4.2.2)

/-!
## The status resolver (`src/sze_core.py`)

The resolver reads the `system_config` document through fixed key paths
(`calendar.fixed_holidays`, `tariff_g12w.cheaper_night_hours`,
`boiler.default_total_power.…`), so that document is embedded as a typed
view matching the consumed schema: an `Option` at each level models a key
that may be absent (`dict.get` with a default).  A falsy (`None` or empty)
section and an absent section take the same branch in the source, so both
are `none` here.
-/

/-- `calendar` section: `fixed_holidays` (`MM-DD` strings) and
`movable_holidays` (`YYYY-MM-DD` strings), each key optional. -/
structure CalendarConfig where
  fixed_holidays : Option (List String)
  movable_holidays : Option (List String)
deriving Repr

/-- `tariff_g12w` section: the `cheaper_night_hours` string, optional. -/
structure TariffConfig where
  cheaper_night_hours : Option String
deriving Repr

/-- `boiler.default_total_power` section. -/
structure BoilerPower where
  morning_watts : Option Int
  evening_watts : Option Int
deriving Repr

/-- `boiler` section. -/
structure BoilerConfig where
  default_total_power : Option BoilerPower
deriving Repr

/-- The `system_config` document as read by the resolver. -/
structure SystemConfig where
  calendar : Option CalendarConfig
  tariff_g12w : Option TariffConfig
  boiler : Option BoilerConfig
deriving Repr

/-- A Python `datetime` as observed by the resolver: the calendar fields
used by `strftime`, the hour used by the tariff rule, and `weekday()`
(0 = Monday … 6 = Sunday). -/
structure PyDateTime where
  year : Nat
  month : Nat
  day : Nat
  hour : Nat
  minute : Nat
  second : Nat
  weekday : Nat
deriving Repr

/-- Two-digit zero padding, as in `strftime` `%m`/`%d`/`%H`. -/
def pad2 (n : Nat) : String :=
  if n < 10 then "0" ++ toString n else toString n

/-- `dt.strftime("%m-%d")` — the fixed-holiday lookup key. -/
def mm_dd (dt : PyDateTime) : String :=
  pad2 dt.month ++ "-" ++ pad2 dt.day

/-- `dt.strftime("%Y-%m-%d")` — the movable-holiday lookup key. -/
def yyyy_mm_dd (dt : PyDateTime) : String :=
  toString dt.year ++ "-" ++ mm_dd dt

/-- `dt.strftime("%H:%M:%S")`. -/
def hhmmss (dt : PyDateTime) : String :=
  pad2 dt.hour ++ ":" ++ pad2 dt.minute ++ ":" ++ pad2 dt.second

/-- `dt.isoformat()` (no microseconds field in the model). -/
def isoformat (dt : PyDateTime) : String :=
  toString dt.year ++ "-" ++ pad2 dt.month ++ "-" ++ pad2 dt.day ++ "T" ++
    hhmmss dt

/-- English weekday name, `strftime` `%A` in the C locale (0 = Monday). -/
def englishWeekday (w : Nat) : String :=
  (["Monday", "Tuesday", "Wednesday", "Thursday", "Friday", "Saturday",
    "Sunday"].get? w).getD ""

/-- English month name, `strftime` `%B` in the C locale (1 = January). -/
def englishMonth (m : Nat) : String :=
  (["January", "February", "March", "April", "May", "June", "July",
    "August", "September", "October", "November", "December"].get?
    (m - 1)).getD ""

/-- The `data_str` field: `now.strftime("%A %d %B %Y")` followed by the
seven `.replace` calls that localize the weekday name (sze_core.py lines
70–76). -/
def polish_day_string (dt : PyDateTime) : String :=
  ((((((englishWeekday dt.weekday ++ " " ++ pad2 dt.day ++ " " ++
        englishMonth dt.month ++ " " ++ toString dt.year).replace
      "Monday" "poniedziałek").replace "Tuesday" "wtorek").replace
      "Wednesday" "środa").replace "Thursday" "czwartek").replace
      "Friday" "piątek").replace "Saturday" "sobota" |>.replace
      "Sunday" "niedziela"

/-- The `calendar` section as extracted by `_get_day_type` (sze_core.py
lines 99–100): `system_config.get('calendar', {}) if system_config else {}`. -/
def calendar_of (cfg : Option SystemConfig) : Option CalendarConfig :=
  match cfg with
  | some c => c.calendar
  | none => none

/-- `calendar_config.get('fixed_holidays', [])` (sze_core.py line 102). -/
def fixed_holidays_of (cfg : Option SystemConfig) : List String :=
  match calendar_of cfg with
  | some cal => cal.fixed_holidays.getD []
  | none => []

/-- `calendar_config.get('movable_holidays', [])` (sze_core.py line 103). -/
def movable_holidays_of (cfg : Option SystemConfig) : List String :=
  match calendar_of cfg with
  | some cal => cal.movable_holidays.getD []
  | none => []

/-- `SystemManager._get_day_type` (sze_core.py lines 96–118): the holiday
check on `MM-DD` / `YYYY-MM-DD` first, then the weekday split
(`< 5` workday, `== 5` Saturday, else Sunday). -/
def get_day_type (cfg : Option SystemConfig) (dt : PyDateTime) : String :=
  if mm_dd dt ∈ fixed_holidays_of cfg ∨
      yyyy_mm_dd dt ∈ movable_holidays_of cfg then
    "niedziela/święto"
  else if dt.weekday < 5 then "roboczy"
  else if dt.weekday = 5 then "sobota"
  else "niedziela/święto"

/-!
### Python string helpers for the tariff parse

`str.split(sep)` and `int(str)` are modelled on character lists so that
they evaluate by kernel reduction.  `pyInt` covers CPython `int(str)` on
ASCII inputs: surrounding whitespace is stripped, an optional single sign
is allowed, and the remainder must be a non-empty run of decimal digits
(digit-group underscores and non-ASCII digits are outside the model; no
string in this repository uses them).
-/

/-- Accumulator loop of Python `str.split(sep)` for a one-character
separator: `"a--b".split('-') == ["a", "", "b"]`, `"".split('-') == [""]`. -/
def splitCharAux (sep : Char) : List Char → List Char → List (List Char)
  | [], acc => [acc.reverse]
  | ch :: rest, acc =>
    if ch = sep then acc.reverse :: splitCharAux sep rest []
    else splitCharAux sep rest (ch :: acc)

/-- Python `s.split(sep)` for a one-character separator. -/
def pySplit (s : String) (sep : Char) : List String :=
  (splitCharAux sep s.toList []).map fun cs => ⟨cs⟩

/-- Python `str.strip()` as performed inside `int(str)`. -/
def pyStrip (s : String) : String :=
  ⟨((s.toList.dropWhile Char.isWhitespace).reverse.dropWhile
      Char.isWhitespace).reverse⟩

/-- A non-empty run of decimal digits. -/
def isDigitRun (cs : List Char) : Bool :=
  !cs.isEmpty && cs.all (·.isDigit)

/-- The numeric value of a run of decimal digits. -/
def digitsToNat (cs : List Char) : Nat :=
  cs.foldl (fun n ch => n * 10 + (ch.toNat - 48)) 0

/-- Python `int(s)`: `none` models a raised `ValueError`. -/
def pyInt (s : String) : Option Int :=
  match (pyStrip s).toList with
  | '-' :: r => if isDigitRun r then some (-(digitsToNat r : Int)) else none
  | '+' :: r => if isDigitRun r then some ((digitsToNat r : Int)) else none
  | r => if isDigitRun r then some ((digitsToNat r : Int)) else none

/-- `s.split(':')[0]` — index 0 always exists since `split` never returns
an empty list. -/
def firstColonField (s : String) : String :=
  (pySplit s ':').headD ""

/-- The hour-bound extraction of `_get_current_tariff` (sze_core.py lines
156–157): `int(s.split('-')[0].split(':')[0])` and
`int(s.split('-')[1].split(':')[0])`.  A missing index `[1]` raises
`IndexError` and a failed `int` raises `ValueError`; both are caught by the
source's `except (ValueError, IndexError)` — modelled as `none`. -/
def parse_night_hours (s : String) : Option (Int × Int) :=
  match pySplit s '-' with
  | p0 :: p1 :: _ =>
    match pyInt (firstColonField p0), pyInt (firstColonField p1) with
    | some a, some b => some (a, b)
    | _, _ => none
  | _ => none

/-- The effective `cheaper_night_hours` string (sze_core.py lines 149–153):
`system_config.get('tariff_g12w', {}) if system_config else {}`, then
`.get('cheaper_night_hours', '22:00-06:00')`. -/
def effective_cheaper_night (cfg : Option SystemConfig) : String :=
  match cfg with
  | none => "22:00-06:00"
  | some c =>
    match c.tariff_g12w with
    | none => "22:00-06:00"
    | some t => t.cheaper_night_hours.getD "22:00-06:00"

/-- `SystemManager._get_current_tariff` (sze_core.py lines 139–170):
holiday/Sunday gives the cheap band for the whole day; otherwise the
configured night interval decides, wrapping past midnight when
`start_hour > end_hour`; a failed parse or an empty string falls through to
`"droższa"`. -/
def get_current_tariff (cfg : Option SystemConfig) (dt : PyDateTime) :
    String :=
  let hour : Int := dt.hour
  let day_type := get_day_type cfg dt
  if day_type = "niedziela/święto" then "tańsza"
  else
    let cheaper_night := effective_cheaper_night cfg
    if cheaper_night ≠ "" then
      match parse_night_hours cheaper_night with
      | some (start_hour, end_hour) =>
        if start_hour > end_hour then
          if hour ≥ start_hour ∨ hour < end_hour then "tańsza" else "droższa"
        else
          if start_hour ≤ hour ∧ hour < end_hour then "tańsza" else "droższa"
      | none => "droższa"
    else "droższa"

/-- Python `list(d.keys())` on a JSON object. -/
def JsonVal.keys : JsonVal → List String
  | .obj fs => fs.map (·.1)
  | _ => []

/-- The part of `SystemManager.config_data` that `_update_system_status`,
`_get_day_type` and `_get_current_tariff` read: the raw `energy_profiles`
document (for the availability fields) and the typed `system_config` view.
The other slots (`cwu_schedule`, `user_corrections`, `config_status`) are
never read by the status computation. -/
structure ConfigDataView where
  energy_profiles : Option JsonVal
  system_config : Option SystemConfig
deriving Repr

/-- The `system_status` dictionary built by `_update_system_status`
(sze_core.py lines 68–92). -/
structure SystemStatus where
  timestamp : String
  data_str : String
  godzina : String
  rodzaj_dnia : String
  okno_dobowe : String
  taryfa : String
  cwz_z_kotla : String
  grzalki_zablokowane : String
  system_active : Bool
  last_update : String
  config_loaded : Bool
  profiles_available : List String
  boiler_morning_power_w : Int
  boiler_evening_power_w : Int
deriving Repr

/-- `SystemManager._update_system_status` (sze_core.py lines 59–94).  The
daily-window computation (`_get_current_window`) delegates to the external
solar resolver `daily_windows.get_current_window`, which is not part of
this repository; it enters the model as the function parameter `w`.  Note
lines 82–83 of the source: `cwz_z_kotla` and `grzalki_zablokowane` are the
fixed strings `'WŁ'` and `'TAK'` ("temporarily always on / locked"), not a
rendering of the operating flags. -/
def update_system_status (w : PyDateTime → String) (cd : ConfigDataView)
    (now : PyDateTime) : SystemStatus :=
  let system_config := cd.system_config
  let boiler_config : Option BoilerConfig :=
    match system_config with
    | some c => c.boiler
    | none => none
  let default_power : Option BoilerPower :=
    match boiler_config with
    | some b => b.default_total_power
    | none => none
  { timestamp := isoformat now
    data_str := polish_day_string now
    godzina := hhmmss now
    rodzaj_dnia := get_day_type system_config now
    okno_dobowe := w now
    taryfa := get_current_tariff system_config now
    cwz_z_kotla := "WŁ"
    grzalki_zablokowane := "TAK"
    system_active := true
    last_update := hhmmss now
    config_loaded := optTruthy cd.energy_profiles
    profiles_available :=
      if optTruthy cd.energy_profiles then
        ((cd.energy_profiles.getD .null).getD "energy_profiles"
          (.obj [])).keys
      else []
    boiler_morning_power_w :=
      match default_power with
      | some p => p.morning_watts.getD 0
      | none => 0
    boiler_evening_power_w :=
      match default_power with
      | some p => p.evening_watts.getD 0
      | none => 0 }

/-- The acknowledgment dictionary returned by `toggle_cwu_boiler`
(sze_core.py line 212). -/
structure Ack where
  status : String
  cwz_z_kotla : String
deriving Repr

/-- The mutable state of a `SystemManager` instance. -/
structure MgrState where
  system_status : SystemStatus
  config_data : ConfigDataView
  last_update : Option PyDateTime
  cwu_boiler_enabled : Bool
  heaters_locked : Bool
deriving Repr

/-- `SystemManager.__init__` (sze_core.py lines 26–36): load the config
view, compute the first snapshot, then set both operating flags to `True`.
`view` is the result of `_load_config_data` at construction time. -/
def SystemManager_init (w : PyDateTime → String) (view : ConfigDataView)
    (now : PyDateTime) : MgrState :=
  { system_status := update_system_status w view now
    config_data := view
    last_update := some now
    cwu_boiler_enabled := true
    heaters_locked := true }

/-- `SystemManager.toggle_cwu_boiler` (sze_core.py lines 202–212): store
the flag; when enabling, also force `heaters_locked = True`; recompute the
snapshot; return the acknowledgment dictionary. -/
def toggle_cwu_boiler (w : PyDateTime → String) (st : MgrState)
    (enabled : Bool) (now : PyDateTime) : MgrState × Ack :=
  let st := { st with cwu_boiler_enabled := enabled }
  let st := if enabled then { st with heaters_locked := true } else st
  let st := { st with
    system_status := update_system_status w st.config_data now
    last_update := some now }
  (st, { status := "success", cwz_z_kotla := if enabled then "WŁ" else "WYŁ" })

/-- `SystemManager.refresh_data` (sze_core.py lines 172–176): replace the
config view by the result of `_load_config_data` (the `view` argument) and
recompute the snapshot.  The operating flags are untouched. -/
def refresh_data (w : PyDateTime → String) (st : MgrState)
    (view : ConfigDataView) (now : PyDateTime) : MgrState :=
  { st with
    config_data := view
    system_status := update_system_status w view now
    last_update := some now }

/-- The manager states reachable through the public operations.  The
remaining exposed operations (`get_system_info`, `get_config_data`,
`calculate_balance`) do not mutate the state. -/
inductive Reachable : MgrState → Prop where
  | init : ∀ w view now, Reachable (SystemManager_init w view now)
  | toggle : ∀ w st enabled now, Reachable st →
      Reachable (toggle_cwu_boiler w st enabled now).1
  | refresh : ∀ w st view now, Reachable st →
      Reachable (refresh_data w st view now)

/-- A sequence of `reload_all_configs` calls (each with its source-read
outcomes and its wall-clock string), applied to a starting cache. -/
def runReloads (calls : List (SourceReads × String)) (c : ConfigCache) :
    ConfigCache :=
  calls.foldl (fun c p => (reload_all_configs p.1 p.2 c).2) c

/-- A well-formed `HH:MM` field: two decimal digits, a colon, two decimal
digits.  Stated from the spec's words to express the claims' notion of a
well-formed tariff string; the source never checks this shape. -/
def isHHMMField (s : String) : Bool :=
  match s.toList with
  | [h1, h2, ':', m1, m2] =>
    h1.isDigit && h2.isDigit && m1.isDigit && m2.isDigit
  | _ => false

/-- A well-formed `HH:MM-HH:MM` tariff string, per the spec's words. -/
def isHHMMRange (s : String) : Bool :=
  match pySplit s '-' with
  | [a, b] => isHHMMField a && isHHMMField b
  | _ => false

/-!
## Concrete fixtures used by witnesses and counterexamples
-/

/-- A non-empty (truthy) JSON document. -/
def truthyDoc : JsonVal := .obj [("k", .num 1)]

/-- Source reads where `energy_profiles.json` parses to the empty object
`{}` (valid JSON, no read or parse error) and the other three files parse
to non-empty objects. -/
def emptyObjReads : SourceReads :=
  { energy := some (.obj []), cwu := some truthyDoc,
    system := some truthyDoc, corrections := some truthyDoc }

/-- Source reads where only `energy_profiles.json` loads. -/
def oneGoodRead : SourceReads :=
  { energy := some truthyDoc, cwu := none, system := none,
    corrections := none }

/-- Source reads where every file is missing or unparsable. -/
def noReads : SourceReads :=
  { energy := none, cwu := none, system := none, corrections := none }

/-- A cache in which all four documents are present and truthy. -/
def fullCache : ConfigCache :=
  { energy_profiles := some truthyDoc, cwu_schedule := some truthyDoc,
    system_config := some truthyDoc, user_corrections := some truthyDoc,
    last_load_time := some "t0" }

/-- A system config with one fixed and one movable holiday and the default
night interval. -/
def sampleSystemConfig : SystemConfig :=
  { calendar := some
      { fixed_holidays := some ["01-01"],
        movable_holidays := some ["2024-04-01"] }
    tariff_g12w := some { cheaper_night_hours := some "22:00-06:00" }
    boiler := none }

/-- A system config whose tariff string is `"22:00-06:00x"`: not of the
`HH:MM-HH:MM` shape, yet both hour bounds are still extractable. -/
def trailingJunkTariffConfig : SystemConfig :=
  { calendar := none
    tariff_g12w := some { cheaper_night_hours := some "22:00-06:00x" }
    boiler := none }

/-- A system config whose tariff string is `"garbage"`. -/
def garbageTariffConfig : SystemConfig :=
  { calendar := none
    tariff_g12w := some { cheaper_night_hours := some "garbage" }
    boiler := none }

/-- Tuesday 2024-01-02 at a given hour (`weekday()` is 1). -/
def tuesdayAt (h : Nat) : PyDateTime :=
  { year := 2024, month := 1, day := 2, hour := h, minute := 0, second := 0,
    weekday := 1 }

/-- A January 1st that falls on a Saturday (`weekday()` is 5): its `MM-DD`
is in `sampleSystemConfig`'s fixed holidays. -/
def saturdayJan1 : PyDateTime :=
  { year := 2022, month := 1, day := 1, hour := 12, minute := 0, second := 0,
    weekday := 5 }

/-- A stub for the external solar-window resolver. -/
def windowStub : PyDateTime → String := fun _ => "okno"

/-- An empty resolver config view. -/
def emptyView : ConfigDataView :=
  { energy_profiles := none, system_config := none }

/-- A freshly constructed manager. -/
def initialMgr : MgrState :=
  SystemManager_init windowStub emptyView (tuesdayAt 12)

/-!
## Helper lemmas
-/

/-- Closed form of `reload_all_configs`: the success flag is the
conjunction of the four per-document truthiness tests, each passing
document overwrites its slot, and `last_load_time` is refreshed exactly
when some document passed. -/
theorem reload_all_configs_eq (src : SourceReads) (now : String)
    (c : ConfigCache) :
    reload_all_configs src now c =
      (allLoaded src,
       { energy_profiles :=
           if optTruthy src.energy then src.energy else c.energy_profiles
         cwu_schedule :=
           if optTruthy src.cwu then src.cwu else c.cwu_schedule
         system_config :=
           if optTruthy src.system then src.system else c.system_config
         user_corrections :=
           if optTruthy src.corrections then src.corrections
           else c.user_corrections
         last_load_time :=
           if anyLoaded src then some now else c.last_load_time }) := by
  unfold reload_all_configs allLoaded anyLoaded
  by_cases h1 : optTruthy src.energy <;> by_cases h2 : optTruthy src.cwu <;>
    by_cases h3 : optTruthy src.system <;>
    by_cases h4 : optTruthy src.corrections <;>
    simp [h1, h2, h3, h4]

/-- An accessor on a truthy cached document performs no reload and returns
the cached document (here for `get_energy_profiles` without a day-type
filter). -/
theorem get_energy_profiles_cached (src : SourceReads) (now : String)
    (c : ConfigCache) (h : optTruthy c.energy_profiles = true) :
    (get_energy_profiles none src now c).1 = c.energy_profiles := by
  cases hc : c.energy_profiles with
  | none => rw [hc] at h; simp [optTruthy] at h
  | some d =>
    rw [hc] at h
    simp only [optTruthy] at h
    simp [get_energy_profiles, hc, h, strOptTruthy, optTruthy]

/-- `get_cwu_schedule` on a truthy cached document: no reload, returns the
slot. -/
theorem get_cwu_schedule_cached (src : SourceReads) (now : String)
    (c : ConfigCache) (h : optTruthy c.cwu_schedule = true) :
    (get_cwu_schedule src now c).1 = c.cwu_schedule := by
  simp [get_cwu_schedule, h]

/-- `get_system_config` on a truthy cached document: no reload, returns the
slot. -/
theorem get_system_config_cached (src : SourceReads) (now : String)
    (c : ConfigCache) (h : optTruthy c.system_config = true) :
    (get_system_config src now c).1 = c.system_config := by
  simp [get_system_config, h]

/-- `get_user_corrections` on a truthy cached document: no reload, returns
the slot. -/
theorem get_user_corrections_cached (src : SourceReads) (now : String)
    (c : ConfigCache) (h : optTruthy c.user_corrections = true) :
    (get_user_corrections src now c).1 = c.user_corrections := by
  simp [get_user_corrections, h]

/-- Full state of `get_energy_profiles` on a truthy cached document: the
document is returned, the cache is untouched, no reload happens. -/
theorem get_energy_profiles_cached_state (src : SourceReads) (now : String)
    (c : ConfigCache) (h : optTruthy c.energy_profiles = true) :
    get_energy_profiles none src now c = (c.energy_profiles, c, false) := by
  cases hc : c.energy_profiles with
  | none => rw [hc] at h; simp [optTruthy] at h
  | some d =>
    have hd : d.truthy = true := by
      rw [hc] at h; simpa [optTruthy] using h
    simp [get_energy_profiles, optTruthy, hc, hd, strOptTruthy]

/-- Full state of `get_cwu_schedule` on a truthy cached document. -/
theorem get_cwu_schedule_cached_state (src : SourceReads) (now : String)
    (c : ConfigCache) (h : optTruthy c.cwu_schedule = true) :
    get_cwu_schedule src now c = (c.cwu_schedule, c, false) := by
  simp [get_cwu_schedule, h]

/-- Full state of `get_system_config` on a truthy cached document. -/
theorem get_system_config_cached_state (src : SourceReads) (now : String)
    (c : ConfigCache) (h : optTruthy c.system_config = true) :
    get_system_config src now c = (c.system_config, c, false) := by
  simp [get_system_config, h]

/-- Full state of `get_user_corrections` on a truthy cached document. -/
theorem get_user_corrections_cached_state (src : SourceReads) (now : String)
    (c : ConfigCache) (h : optTruthy c.user_corrections = true) :
    get_user_corrections src now c = (c.user_corrections, c, false) := by
  simp [get_user_corrections, h]

/-- `get_energy_profiles` on a falsy cached document invokes the reload. -/
theorem get_energy_profiles_reloads (src : SourceReads) (now : String)
    (c : ConfigCache) (h : optTruthy c.energy_profiles = false) :
    (get_energy_profiles none src now c).2.2 = true := by
  have h0 : (¬ optTruthy c.energy_profiles = true) := by simp [h]
  cases hc : ((reload_all_configs src now c).2).energy_profiles with
  | none => simp [get_energy_profiles, h0, hc]
  | some d =>
    simp [get_energy_profiles, h0, hc, strOptTruthy]
    split <;> rfl

/-- `get_cwu_schedule` on a falsy cached document invokes the reload. -/
theorem get_cwu_schedule_reloads (src : SourceReads) (now : String)
    (c : ConfigCache) (h : optTruthy c.cwu_schedule = false) :
    (get_cwu_schedule src now c).2.2 = true := by
  simp [get_cwu_schedule, h]

/-- `get_system_config` on a falsy cached document invokes the reload. -/
theorem get_system_config_reloads (src : SourceReads) (now : String)
    (c : ConfigCache) (h : optTruthy c.system_config = false) :
    (get_system_config src now c).2.2 = true := by
  simp [get_system_config, h]

/-- `get_user_corrections` on a falsy cached document invokes the reload. -/
theorem get_user_corrections_reloads (src : SourceReads) (now : String)
    (c : ConfigCache) (h : optTruthy c.user_corrections = false) :
    (get_user_corrections src now c).2.2 = true := by
  simp [get_user_corrections, h]

/-- `_load_config_data` performs no `reload_all_configs` call iff all four
documents are already cached when it starts: the accessors are lazy, and a
truthy slot is passed over without touching the store. -/
theorem load_config_data_reload_iff (src : SourceReads) (now : String)
    (c : ConfigCache) :
    ((load_config_data src now c).2.2 = false ↔ allCached c = true) := by
  simp only [load_config_data]
  by_cases h1 : optTruthy c.energy_profiles = true
  · rw [get_energy_profiles_cached_state src now c h1]
    dsimp only
    by_cases h2 : optTruthy c.cwu_schedule = true
    · rw [get_cwu_schedule_cached_state src now c h2]
      dsimp only
      by_cases h3 : optTruthy c.system_config = true
      · rw [get_system_config_cached_state src now c h3]
        dsimp only
        by_cases h4 : optTruthy c.user_corrections = true
        · rw [get_user_corrections_cached_state src now c h4]
          simp [allCached, h1, h2, h3, h4]
        · rw [Bool.not_eq_true] at h4
          rw [get_user_corrections_reloads src now c h4]
          simp [allCached, h4]
      · rw [Bool.not_eq_true] at h3
        rw [get_system_config_reloads src now c h3]
        simp [allCached, h3]
    · rw [Bool.not_eq_true] at h2
      rw [get_cwu_schedule_reloads src now c h2]
      simp [allCached, h2]
  · rw [Bool.not_eq_true] at h1
    rw [get_energy_profiles_reloads src now c h1]
    simp [allCached, h1]

/-- `last_load_time` over a sequence of reloads: it is non-null exactly
when some call loaded at least one document or it was non-null to begin
with. -/
theorem runReloads_last_load_time (calls : List (SourceReads × String))
    (c : ConfigCache) :
    (runReloads calls c).last_load_time ≠ none ↔
      (∃ p ∈ calls, anyLoaded p.1 = true) ∨ c.last_load_time ≠ none := by
  induction calls generalizing c with
  | nil => simp [runReloads]
  | cons p rest ih =>
    have hstep : runReloads (p :: rest) c =
        runReloads rest ((reload_all_configs p.1 p.2 c).2) := rfl
    rw [hstep, ih]
    have hl : ((reload_all_configs p.1 p.2 c).2).last_load_time =
        if anyLoaded p.1 = true then some p.2 else c.last_load_time := by
      rw [reload_all_configs_eq]
    rw [hl]
    by_cases hp : anyLoaded p.1 = true
    · rw [if_pos hp]
      constructor
      · intro _; exact Or.inl ⟨p, List.mem_cons_self p rest, hp⟩
      · intro _; exact Or.inr (by simp)
    · rw [if_neg hp]
      constructor
      · rintro (⟨q, hq, hq2⟩ | hc)
        · exact Or.inl ⟨q, List.mem_cons_of_mem p hq, hq2⟩
        · exact Or.inr hc
      · rintro (⟨q, hq, hq2⟩ | hc)
        · rcases List.mem_cons.mp hq with h1 | h1
          · exact absurd (h1 ▸ hq2) hp
          · exact Or.inl ⟨q, h1, hq2⟩
        · exact Or.inr hc

/-- On a holiday or Sunday the tariff is the cheap band, whole day. -/
theorem tariff_of_holiday (cfg : Option SystemConfig) (dt : PyDateTime)
    (h : get_day_type cfg dt = "niedziela/święto") :
    get_current_tariff cfg dt = "tańsza" := by
  simp [get_current_tariff, h]

/-- On a non-holiday, once the two hour bounds parse, the tariff is decided
by the (possibly midnight-wrapping) interval test of the source. -/
theorem tariff_of_parse (cfg : Option SystemConfig) (dt : PyDateTime)
    (sh eh : Int) (hd : get_day_type cfg dt ≠ "niedziela/święto")
    (hp : parse_night_hours (effective_cheaper_night cfg) = some (sh, eh)) :
    get_current_tariff cfg dt =
      if sh > eh then
        if (dt.hour : Int) ≥ sh ∨ (dt.hour : Int) < eh then "tańsza"
        else "droższa"
      else
        if sh ≤ (dt.hour : Int) ∧ (dt.hour : Int) < eh then "tańsza"
        else "droższa" := by
  have hs : ¬ effective_cheaper_night cfg = "" := by
    intro h0
    rw [h0] at hp
    have h1 : parse_night_hours "" = none := rfl
    rw [h1] at hp
    cases hp
  simp only [get_current_tariff]
  rw [if_neg hd, if_pos hs, hp]

/-- On a non-holiday, a tariff string from which no hour bounds can be
extracted falls through to the expensive band. -/
theorem tariff_of_noparse (cfg : Option SystemConfig) (dt : PyDateTime)
    (hd : get_day_type cfg dt ≠ "niedziela/święto")
    (hp : parse_night_hours (effective_cheaper_night cfg) = none) :
    get_current_tariff cfg dt = "droższa" := by
  simp only [get_current_tariff]
  rw [if_neg hd]
  by_cases hs : effective_cheaper_night cfg = ""
  · rw [if_neg (by simp [hs])]
  · rw [if_pos hs, hp]

/-- The tariff classification is total: every evaluation returns one of the
two bands (the source's `try/except` absorbs the only raising operations). -/
theorem get_current_tariff_total (cfg : Option SystemConfig)
    (dt : PyDateTime) :
    get_current_tariff cfg dt = "tańsza" ∨
      get_current_tariff cfg dt = "droższa" := by
  by_cases hd : get_day_type cfg dt = "niedziela/święto"
  · exact Or.inl (tariff_of_holiday cfg dt hd)
  · rcases hp : parse_night_hours (effective_cheaper_night cfg) with _ | ⟨sh, eh⟩
    · exact Or.inr (tariff_of_noparse cfg dt hd hp)
    · rw [tariff_of_parse cfg dt sh eh hd hp]
      split_ifs <;> first | exact Or.inl rfl | exact Or.inr rfl

/-!
## The claims
-/

/-- C4, counterexample: `energy_profiles.json` containing the valid JSON
text `{}` loads without error (all four `_load_json_file` calls return a
value, `allReadable`), yet `reload_all_configs` returns `False`, because
the source tests each document with Python truthiness (`if energy_data:`)
and the empty object is falsy.  This refutes "returns true iff all four
documents load without error in that call". -/
theorem C4_counterexample :
    allReadable emptyObjReads = true ∧
    (reload_all_configs emptyObjReads "t1" initialCache).1 = false :=
  ⟨rfl, rfl⟩

/-- C4, amended: `reload_all_configs` returns `True` iff all four
documents load to truthy (non-empty) values in that call; a document that
is missing, unparsable, or parses to a falsy value (such as `{}`) makes
the result `False`, even if the other documents succeeded. -/
theorem C4_reload_success_iff_all_loaded (src : SourceReads) (now : String)
    (c : ConfigCache) :
    (reload_all_configs src now c).1 = allLoaded src := by
  rw [reload_all_configs_eq]

/-- C5: per document independently, an unreadable or unparsable source
(`none` read outcome) leaves that document's cached value exactly as it
was, while a document that loads in the same call overwrites its slot and
is returned by its accessor afterwards. -/
theorem C5_reload_per_document_frame (src : SourceReads) (now : String)
    (c : ConfigCache) :
    (src.energy = none →
      ((reload_all_configs src now c).2).energy_profiles =
        c.energy_profiles) ∧
    (optTruthy src.energy = true →
      ((reload_all_configs src now c).2).energy_profiles = src.energy ∧
      ∀ src2 now2, (get_energy_profiles none src2 now2
        (reload_all_configs src now c).2).1 = src.energy) ∧
    (src.cwu = none →
      ((reload_all_configs src now c).2).cwu_schedule = c.cwu_schedule) ∧
    (optTruthy src.cwu = true →
      ((reload_all_configs src now c).2).cwu_schedule = src.cwu ∧
      ∀ src2 now2, (get_cwu_schedule src2 now2
        (reload_all_configs src now c).2).1 = src.cwu) ∧
    (src.system = none →
      ((reload_all_configs src now c).2).system_config = c.system_config) ∧
    (optTruthy src.system = true →
      ((reload_all_configs src now c).2).system_config = src.system ∧
      ∀ src2 now2, (get_system_config src2 now2
        (reload_all_configs src now c).2).1 = src.system) ∧
    (src.corrections = none →
      ((reload_all_configs src now c).2).user_corrections =
        c.user_corrections) ∧
    (optTruthy src.corrections = true →
      ((reload_all_configs src now c).2).user_corrections =
        src.corrections ∧
      ∀ src2 now2, (get_user_corrections src2 now2
        (reload_all_configs src now c).2).1 = src.corrections) := by
  rw [reload_all_configs_eq]
  refine ⟨?_, ?_, ?_, ?_, ?_, ?_, ?_, ?_⟩
  · intro h; simp [h, optTruthy]
  · intro h
    refine ⟨by simp [h], ?_⟩
    intro src2 now2
    rw [get_energy_profiles_cached src2 now2 _ (by simp [h])]
    simp [h]
  · intro h; simp [h, optTruthy]
  · intro h
    refine ⟨by simp [h], ?_⟩
    intro src2 now2
    rw [get_cwu_schedule_cached src2 now2 _ (by simp [h])]
    simp [h]
  · intro h; simp [h, optTruthy]
  · intro h
    refine ⟨by simp [h], ?_⟩
    intro src2 now2
    rw [get_system_config_cached src2 now2 _ (by simp [h])]
    simp [h]
  · intro h; simp [h, optTruthy]
  · intro h
    refine ⟨by simp [h], ?_⟩
    intro src2 now2
    rw [get_user_corrections_cached src2 now2 _ (by simp [h])]
    simp [h]

/-- C5, witness: a reload in which only `energy_profiles.json` loads keeps
the other three slots at their previous values and leaves the loaded
document retrievable. -/
theorem C5_witness :
    optTruthy (SourceReads.energy oneGoodRead) = true ∧
    ((reload_all_configs oneGoodRead "t1" fullCache).2).energy_profiles =
      oneGoodRead.energy ∧
    (get_energy_profiles none noReads "t2"
      (reload_all_configs oneGoodRead "t1" fullCache).2).1 =
      oneGoodRead.energy ∧
    SourceReads.cwu oneGoodRead = none ∧
    ((reload_all_configs oneGoodRead "t1" fullCache).2).cwu_schedule =
      fullCache.cwu_schedule :=
  ⟨rfl,
   ((C5_reload_per_document_frame oneGoodRead "t1" fullCache).2.1 rfl).1,
   ((C5_reload_per_document_frame oneGoodRead "t1" fullCache).2.1 rfl).2
     noReads "t2",
   rfl,
   (C5_reload_per_document_frame oneGoodRead "t1" fullCache).2.2.1 rfl⟩

/-- C6: `last_load_time` is non-null after a sequence of reload calls
starting from the initial cache iff some call loaded at least one
document; a call that loads at least one document stamps `last_load_time`
with that call's clock; a call in which all four documents fail leaves it
unchanged. -/
theorem C6_last_load_time_invariant :
    (∀ calls, (runReloads calls initialCache).last_load_time ≠ none ↔
      ∃ p ∈ calls, anyLoaded p.1 = true) ∧
    (∀ src now c, anyLoaded src = true →
      ((reload_all_configs src now c).2).last_load_time = some now) ∧
    (∀ src now c, anyLoaded src = false →
      ((reload_all_configs src now c).2).last_load_time =
        c.last_load_time) := by
  refine ⟨?_, ?_, ?_⟩
  · intro calls
    have h := runReloads_last_load_time calls initialCache
    simpa [initialCache] using h
  · intro src now c h
    rw [reload_all_configs_eq]
    simp [h]
  · intro src now c h
    rw [reload_all_configs_eq]
    simp [h]

/-- C6, witness: a partial reload (one of four loads) stamps
`last_load_time`; a fully failed reload leaves the previous stamp. -/
theorem C6_witness :
    anyLoaded oneGoodRead = true ∧
    ((reload_all_configs oneGoodRead "t1" initialCache).2).last_load_time =
      some "t1" ∧
    anyLoaded noReads = false ∧
    ((reload_all_configs noReads "t2" fullCache).2).last_load_time =
      fullCache.last_load_time :=
  ⟨rfl,
   C6_last_load_time_invariant.2.1 oneGoodRead "t1" initialCache rfl,
   rfl,
   C6_last_load_time_invariant.2.2 noReads "t2" fullCache rfl⟩

/-- C1: `_get_day_type` returns `"niedziela/święto"` (sunday_or_holiday)
whenever the timestamp's `MM-DD` string is among the configured fixed
holidays or its `YYYY-MM-DD` string among the movable holidays, regardless
of the weekday; otherwise weekday 0–4 (Monday–Friday) gives `"roboczy"`
(workday), 5 (Saturday) gives `"sobota"` and 6 (Sunday) gives
`"niedziela/święto"`; and an absent `calendar` section yields empty holiday
lists (the classification is a total function — never an error). -/
theorem C1_day_type_classification :
    (∀ cfg dt, (mm_dd dt ∈ fixed_holidays_of cfg ∨
        yyyy_mm_dd dt ∈ movable_holidays_of cfg) →
      get_day_type cfg dt = "niedziela/święto") ∧
    (∀ cfg dt, ¬ (mm_dd dt ∈ fixed_holidays_of cfg ∨
        yyyy_mm_dd dt ∈ movable_holidays_of cfg) →
      (dt.weekday < 5 → get_day_type cfg dt = "roboczy") ∧
      (dt.weekday = 5 → get_day_type cfg dt = "sobota") ∧
      (dt.weekday = 6 → get_day_type cfg dt = "niedziela/święto")) ∧
    (∀ cfg, calendar_of cfg = none →
      fixed_holidays_of cfg = [] ∧ movable_holidays_of cfg = []) := by
  refine ⟨?_, ?_, ?_⟩
  · intro cfg dt h
    simp [get_day_type, h]
  · intro cfg dt h
    refine ⟨?_, ?_, ?_⟩ <;> intro hw <;> simp [get_day_type, h, hw]
  · intro cfg h
    simp [fixed_holidays_of, movable_holidays_of, h]

/-- C1, witness: January 1st falling on a Saturday is classified
`"niedziela/święto"` by the fixed-holiday rule, overriding the weekday. -/
theorem C1_witness :
    (mm_dd saturdayJan1 ∈ fixed_holidays_of (some sampleSystemConfig) ∨
      yyyy_mm_dd saturdayJan1 ∈
        movable_holidays_of (some sampleSystemConfig)) ∧
    get_day_type (some sampleSystemConfig) saturdayJan1 =
      "niedziela/święto" :=
  ⟨Or.inl (by decide),
   C1_day_type_classification.1 (some sampleSystemConfig) saturdayJan1
     (Or.inl (by decide))⟩

/-- C2: `_get_current_tariff` returns `"tańsza"` (cheaper) unconditionally
when the day classifies as `"niedziela/święto"`; otherwise, once the
configured `cheaper_night_hours` parses to hour bounds `sh`/`eh`, the
result is `"tańsza"` exactly on the (midnight-wrapping when `sh > eh`)
cheap band and `"droższa"` (more expensive) on every other hour; in
particular with `"22:00-06:00"` on a non-holiday Tuesday, hours 23 and 3
are cheap while hours 6 and 21 are expensive. -/
theorem C2_tariff_classification :
    (∀ cfg dt, get_day_type cfg dt = "niedziela/święto" →
      get_current_tariff cfg dt = "tańsza") ∧
    (∀ cfg dt sh eh, get_day_type cfg dt ≠ "niedziela/święto" →
      parse_night_hours (effective_cheaper_night cfg) = some (sh, eh) →
      get_current_tariff cfg dt =
        if sh > eh then
          if (dt.hour : Int) ≥ sh ∨ (dt.hour : Int) < eh then "tańsza"
          else "droższa"
        else
          if sh ≤ (dt.hour : Int) ∧ (dt.hour : Int) < eh then "tańsza"
          else "droższa") ∧
    (get_current_tariff (some sampleSystemConfig) (tuesdayAt 23) =
        "tańsza" ∧
      get_current_tariff (some sampleSystemConfig) (tuesdayAt 3) =
        "tańsza" ∧
      get_current_tariff (some sampleSystemConfig) (tuesdayAt 6) =
        "droższa" ∧
      get_current_tariff (some sampleSystemConfig) (tuesdayAt 21) =
        "droższa") :=
  ⟨tariff_of_holiday, fun cfg dt sh eh hd hp => tariff_of_parse cfg dt sh eh hd hp,
   by decide, by decide, by decide, by decide⟩

/-- C2, witness: the general interval rule applied at the concrete
non-holiday Tuesday, hour 23, with the parsed bounds 22 and 6. -/
theorem C2_witness :
    get_day_type (some sampleSystemConfig) (tuesdayAt 23) ≠
      "niedziela/święto" ∧
    parse_night_hours (effective_cheaper_night (some sampleSystemConfig)) =
      some (22, 6) ∧
    get_current_tariff (some sampleSystemConfig) (tuesdayAt 23) =
      (if (22 : Int) > 6 then
        if (((tuesdayAt 23).hour : Int) ≥ 22 ∨
            ((tuesdayAt 23).hour : Int) < 6) then "tańsza" else "droższa"
      else
        if ((22 : Int) ≤ ((tuesdayAt 23).hour : Int) ∧
            ((tuesdayAt 23).hour : Int) < 6) then "tańsza" else "droższa") :=
  ⟨by decide, by decide,
   C2_tariff_classification.2.1 (some sampleSystemConfig) (tuesdayAt 23)
     22 6 (by decide) (by decide)⟩

/-- C3, counterexample: `"22:00-06:00x"` does not match the `HH:MM-HH:MM`
format, yet tariff classification does not fall through to `"droższa"` for
all non-holiday hours: the source only extracts
`int(s.split('-')[i].split(':')[0])`, which still succeeds here (the junk
sits in the minutes of the second bound), so hour 23 of a non-holiday
Tuesday classifies as `"tańsza"`.  This refutes "for every malformed
cheaper_night_hours string … the classification falls through to
more_expensive for all non-holiday hours". -/
theorem C3_counterexample :
    isHHMMRange "22:00-06:00x" = false ∧
    effective_cheaper_night (some trailingJunkTariffConfig) =
      "22:00-06:00x" ∧
    get_day_type (some trailingJunkTariffConfig) (tuesdayAt 23) ≠
      "niedziela/święto" ∧
    get_current_tariff (some trailingJunkTariffConfig) (tuesdayAt 23) =
      "tańsza" :=
  ⟨by decide, rfl, by decide, by decide⟩

/-- C3, amended: tariff classification is total (never raises — the
embedded function always returns one of the two bands, the source's
`except (ValueError, IndexError)` catching the only raising operations),
and for every `cheaper_night_hours` string from which the source's parse
(`int` of the first `:`-field of the first two `-`-fields) extracts no
hour bounds, every non-holiday hour classifies as `"droższa"`.  (A
malformed-per-spec string from which two integers are still extractable is
used as if well-formed — see the counterexample.) -/
theorem C3_malformed_tariff_fallthrough :
    (∀ cfg dt, get_current_tariff cfg dt = "tańsza" ∨
      get_current_tariff cfg dt = "droższa") ∧
    (∀ cfg dt, parse_night_hours (effective_cheaper_night cfg) = none →
      get_day_type cfg dt ≠ "niedziela/święto" →
      get_current_tariff cfg dt = "droższa") :=
  ⟨get_current_tariff_total,
   fun cfg dt hp hd => tariff_of_noparse cfg dt hd hp⟩

/-- C3, witness: with the string `"garbage"` no bounds parse, and a
non-holiday afternoon hour classifies as `"droższa"`. -/
theorem C3_witness :
    parse_night_hours
      (effective_cheaper_night (some garbageTariffConfig)) = none ∧
    get_day_type (some garbageTariffConfig) (tuesdayAt 13) ≠
      "niedziela/święto" ∧
    get_current_tariff (some garbageTariffConfig) (tuesdayAt 13) =
      "droższa" :=
  ⟨by decide, by decide,
   C3_malformed_tariff_fallthrough.2 (some garbageTariffConfig)
     (tuesdayAt 13) (by decide) (by decide)⟩

/-- C7: `toggle_cwu_boiler` stores the requested flag; enabling forces
`heaters_locked = True` regardless of its prior value; disabling leaves
`heaters_locked` exactly as it was; the status snapshot is recomputed from
the (unchanged) config view; and the returned acknowledgment carries the
new state (`status: success` plus the rendering of the new flag). -/
theorem C7_toggle_boiler :
    ∀ w st enabled now,
      (toggle_cwu_boiler w st enabled now).1.cwu_boiler_enabled = enabled ∧
      (enabled = true →
        (toggle_cwu_boiler w st enabled now).1.heaters_locked = true) ∧
      (enabled = false →
        (toggle_cwu_boiler w st enabled now).1.heaters_locked =
          st.heaters_locked) ∧
      (toggle_cwu_boiler w st enabled now).1.system_status =
        update_system_status w st.config_data now ∧
      (toggle_cwu_boiler w st enabled now).2 =
        { status := "success"
          cwz_z_kotla :=
            if (toggle_cwu_boiler w st enabled now).1.cwu_boiler_enabled
            then "WŁ" else "WYŁ" } := by
  intro w st enabled now
  cases enabled <;> simp [toggle_cwu_boiler]

/-- C7, witness: enabling from the fresh manager locks the heaters;
disabling leaves the lock at its prior value. -/
theorem C7_witness :
    (toggle_cwu_boiler windowStub initialMgr true
      (tuesdayAt 13)).1.heaters_locked = true ∧
    (toggle_cwu_boiler windowStub initialMgr false
      (tuesdayAt 13)).1.heaters_locked = initialMgr.heaters_locked :=
  ⟨(C7_toggle_boiler windowStub initialMgr true (tuesdayAt 13)).2.1 rfl,
   (C7_toggle_boiler windowStub initialMgr false (tuesdayAt 13)).2.2.1 rfl⟩

/-- C8, counterexample: with every document already cached (all four cache
slots truthy), a refresh performs no `reload_all_configs` call at all — the
accessors used by `_load_config_data` are lazy — refuting "calls
reload_all unconditionally, even when every document is already cached". -/
theorem C8_counterexample :
    allCached fullCache = true ∧
    (load_config_data noReads "t1" fullCache).2.2 = false :=
  ⟨rfl, rfl⟩

/-- C8, amended: `refresh_data` reloads the resolver's own config-data view
through the store's accessors, which invoke `reload_all_configs` during the
refresh iff at least one document is not already cached (lazy
reload-on-access, not unconditional), and then recomputes the status
snapshot from the fresh view. -/
theorem C8_refresh_lazy_reload :
    (∀ src now c,
      ((load_config_data src now c).2.2 = false ↔ allCached c = true)) ∧
    (∀ w st view now,
      (refresh_data w st view now).config_data = view ∧
      (refresh_data w st view now).system_status =
        update_system_status w view now ∧
      (refresh_data w st view now).heaters_locked = st.heaters_locked ∧
      (refresh_data w st view now).cwu_boiler_enabled =
        st.cwu_boiler_enabled) :=
  ⟨load_config_data_reload_iff,
   fun _ _ _ _ => ⟨rfl, rfl, rfl, rfl⟩⟩

/-- C9 (code bug): every snapshot's `cwz_z_kotla` and
`grzalki_zablokowane` fields are the hardcoded strings `'WŁ'` and `'TAK'`
(sze_core.py lines 82–83, commented "Tymczasowo" — temporarily), not a
rendering of the operating flags: after `toggle_cwu_boiler(False)` the
flag is `False` while the freshly recomputed snapshot still shows `'WŁ'`. -/
theorem C9_snapshot_flags_hardcoded :
    (toggle_cwu_boiler windowStub initialMgr false
      (tuesdayAt 13)).1.cwu_boiler_enabled = false ∧
    (toggle_cwu_boiler windowStub initialMgr false
      (tuesdayAt 13)).1.system_status.cwz_z_kotla = "WŁ" ∧
    (∀ w cd now,
      (update_system_status w cd now).cwz_z_kotla = "WŁ" ∧
      (update_system_status w cd now).grzalki_zablokowane = "TAK") :=
  ⟨rfl, rfl, fun _ _ _ => ⟨rfl, rfl⟩⟩

/-- C10 (implicit): `heaters_locked` is `True` at construction and no
public operation ever sets it to `False` (`toggle_cwu_boiler(True)` sets
it to `True`, `toggle_cwu_boiler(False)` does not touch it, `refresh_data`
does not touch it), so it is `True` in every reachable state. -/
theorem C10_heaters_locked_always_true :
    ∀ st, Reachable st → st.heaters_locked = true := by
  intro st h
  induction h with
  | init w view now => rfl
  | toggle w st e now _ ih =>
    cases e <;> simp [toggle_cwu_boiler, ih]
  | refresh w st view now _ ih => simpa [refresh_data] using ih

/-- C10, witness: the freshly constructed manager is reachable and its
heaters are locked. -/
theorem C10_witness : initialMgr.heaters_locked = true :=
  C10_heaters_locked_always_true initialMgr
    (Reachable.init windowStub emptyView (tuesdayAt 12))

end SZE
